import Mathlib

/-!
Verification of the ViT model implementation (ViT_Model_demo.py).

The development embeds the tensor pipeline of the source file at two levels:

* a shape semantics: every module's forward pass is a function from input
  tensor shapes to `Except Err Shape`, reproducing exactly the checks the
  Python runtime performs (convolution geometry with floor division, einops
  axis factoring, broadcasting of the in-place additions, linear-layer
  feature checks) and the error each failing check raises;
* an element semantics over `ℝ`: the modules whose numeric behaviour the
  claims mention (patch embedding, attention weights, residual wrapper,
  classification head) are translated elementwise, with softmax as
  exp-normalisation and the post-softmax division by sqrt(emb_size) exactly
  as in the source.

Constructors (`__init__`) are translated as `Except`-valued functions so that
"raises at construction" is a statable property; the source constructors
contain only attribute assignments and layer constructions and no validation,
which the translations reflect.
-/

namespace ViTModel

/-- Runtime errors the translated Python fragments can raise. -/
inductive Err where
  /-- A tensor-shape mismatch (convolution input, linear feature size,
  layer-norm normalized shape, or a failed broadcast of an in-place add). -/
  | shapeError : Err
  /-- An einops rearrange that cannot factor an axis into the requested
  product of axis sizes. -/
  | rearrangeError : Err
  /-- Attribute lookup failure: the source calls `energy.mask_fill`, and
  `torch.Tensor` has no attribute `mask_fill` (the API is `masked_fill`). -/
  | attributeError : Err
  deriving DecidableEq

/-- Shape of a rank-4 tensor `(batch, channels, height, width)`. -/
abbrev Shape4 := ℕ × ℕ × ℕ × ℕ

/-- Shape of a rank-3 tensor `(batch, tokens, features)`. -/
abbrev Shape3 := ℕ × ℕ × ℕ

/-- Shape of a rank-2 tensor `(batch, features)`. -/
abbrev Shape2 := ℕ × ℕ

/-- Shape semantics of `nn.Conv2d(inC, outC, kernel_size=k, stride=s)`:
requires the channel count to equal `inC` and the spatial extent to cover at
least one kernel placement; the output spatial sizes use floor division, so
remainder rows/columns beyond the last full stride are silently dropped. -/
def conv2dShape (inC outC k s : ℕ) (x : Shape4) : Except Err Shape4 :=
  match x with
  | (b, c, h, w) =>
    if c = inC ∧ k ≤ h ∧ k ≤ w then
      .ok (b, outC, (h - k) / s + 1, (w - k) / s + 1)
    else
      .error .shapeError

/-- Shape semantics of `nn.Linear(inF, outF)` on a rank-3 input: the last
axis must equal `inF`. -/
def linearShape (inF outF : ℕ) (x : Shape3) : Except Err Shape3 :=
  match x with
  | (b, n, f) => if f = inF then .ok (b, n, outF) else .error .shapeError

/-- Shape semantics of `nn.LayerNorm(e)` on a rank-3 input. -/
def layerNormShape (e : ℕ) (x : Shape3) : Except Err Shape3 :=
  if x.2.2 = e then .ok x else .error .shapeError

/-- Configuration recorded by `PatchEmbedding.__init__`. -/
structure PatchEmbeddingCfg where
  inChannels : ℕ
  patchSize : ℕ
  embSize : ℕ
  imgSize : ℕ
  deriving DecidableEq

/-- Length of the positional-embedding table
`(img_size // patch_size) ** 2 + 1` created in `PatchEmbedding.__init__`. -/
def numPositions (cfg : PatchEmbeddingCfg) : ℕ :=
  (cfg.imgSize / cfg.patchSize) ^ 2 + 1

namespace PatchEmbedding

/-- Translation of `PatchEmbedding.__init__`: the body assigns attributes
and constructs `nn.Conv2d`, the einops `Rearrange`, and two parameter
tensors; it performs no validation of the arguments, so it never raises. -/
def init (inChannels patchSize embSize imgSize : ℕ) :
    Except Err PatchEmbeddingCfg :=
  .ok ⟨inChannels, patchSize, embSize, imgSize⟩

/-- Shape semantics of `PatchEmbedding.forward`: convolution with kernel and
stride `patch_size`, rearrange `b e h w -> b (h w) e` (never fails),
concatenation of the class token at sequence index 0, then the in-place
broadcast add `x += self.positions` which requires the positional-table
length to equal the token count (or be 1). -/
def forwardShape (cfg : PatchEmbeddingCfg) (x : Shape4) : Except Err Shape3 :=
  match conv2dShape cfg.inChannels cfg.embSize cfg.patchSize cfg.patchSize x with
  | .error e => .error e
  | .ok (b, e, gh, gw) =>
    let n := gh * gw + 1
    if numPositions cfg = n ∨ numPositions cfg = 1 then
      .ok (b, n, e)
    else
      .error .shapeError

end PatchEmbedding

/-- Configuration recorded by `MultiHeadAttention.__init__`. -/
structure MHACfg where
  embSize : ℕ
  numHeads : ℕ
  deriving DecidableEq

namespace MultiHeadAttention

/-- Translation of `MultiHeadAttention.__init__`: the body assigns
`emb_size` and `num_heads` and constructs `nn.Linear(emb_size, emb_size*3)`,
`nn.Dropout`, and `nn.Linear(emb_size, emb_size)`; it contains no
divisibility check of `emb_size` by `num_heads` and never raises. -/
def init (embSize numHeads : ℕ) : Except Err MHACfg :=
  .ok ⟨embSize, numHeads⟩

/-- Shape semantics of `MultiHeadAttention.forward`.  In source order:
the qkv linear produces feature width `emb_size * 3`; the rearrange
`b n (h d qkv) -> (qkv) b h n d` with `h = num_heads, qkv = 3` must factor
that width as `num_heads * d * 3` and fails otherwise; the einsum producing
`energy` always succeeds on these shapes; if a mask is supplied the call
`energy.mask_fill(~mask, fill_value)` raises `AttributeError` because
`torch.Tensor` has no such attribute; softmax, the division by the scaling,
dropout and the value-weighting einsum preserve shape; the closing rearrange
produces width `num_heads * d` which the final projection requires to equal
`emb_size`. -/
def forwardShape (cfg : MHACfg) (x : Shape3) (mask : Option Shape3) :
    Except Err Shape3 :=
  match linearShape cfg.embSize (cfg.embSize * 3) x with
  | .error e => .error e
  | .ok (b, n, f3) =>
    if f3 % (cfg.numHeads * 3) = 0 then
      let d := f3 / (cfg.numHeads * 3)
      match mask with
      | some _ => .error .attributeError
      | none => linearShape cfg.embSize cfg.embSize (b, n, cfg.numHeads * d)
    else
      .error .rearrangeError

end MultiHeadAttention

namespace ResidualAdd

/-- Shape semantics of `ResidualAdd.forward`: run the wrapped module, then
perform the in-place `x += res`; the saved residual must broadcast to the
wrapped output's shape without changing it. -/
def forwardShape (fn : Shape3 → Except Err Shape3) (x : Shape3) :
    Except Err Shape3 :=
  match fn x with
  | .error e => .error e
  | .ok y =>
    if (x.1 = y.1 ∨ x.1 = 1) ∧ (x.2.1 = y.2.1 ∨ x.2.1 = 1) ∧
        (x.2.2 = y.2.2 ∨ x.2.2 = 1) then
      .ok y
    else
      .error .shapeError

end ResidualAdd

namespace FeedForwardBlock

/-- Shape semantics of `FeedForwardBlock`: linear `e -> expansion*e`, GELU
and dropout (shape-preserving), linear `expansion*e -> e`. -/
def forwardShape (embSize expansion : ℕ) (x : Shape3) : Except Err Shape3 :=
  match linearShape embSize (expansion * embSize) x with
  | .error e => .error e
  | .ok y => linearShape (expansion * embSize) embSize y

end FeedForwardBlock

namespace TransformerEncoderBlock

/-- Shape semantics of `TransformerEncoderBlock`: a residual wrapper around
layer-norm, attention (called without a mask inside the sequential chain) and
dropout, then a residual wrapper around layer-norm and the feed-forward
block. -/
def forwardShape (cfg : MHACfg) (expansion : ℕ) (x : Shape3) :
    Except Err Shape3 :=
  match ResidualAdd.forwardShape
      (fun t =>
        match layerNormShape cfg.embSize t with
        | .error e => .error e
        | .ok u => MultiHeadAttention.forwardShape cfg u none) x with
  | .error e => .error e
  | .ok y =>
    ResidualAdd.forwardShape
      (fun t =>
        match layerNormShape cfg.embSize t with
        | .error e => .error e
        | .ok u => FeedForwardBlock.forwardShape cfg.embSize expansion u) y

end TransformerEncoderBlock

namespace TransformerEncoder

/-- Shape semantics of `TransformerEncoder`: `depth` encoder blocks in
sequence (the `forward_expansion` default 4 is used throughout `ViT`). -/
def forwardShape : ℕ → MHACfg → Shape3 → Except Err Shape3
  | 0, _, x => .ok x
  | d + 1, cfg, x =>
    match TransformerEncoderBlock.forwardShape cfg 4 x with
    | .error e => .error e
    | .ok y => forwardShape d cfg y

end TransformerEncoder

/-- Shape semantics of the einops `Reduce('b n e -> b e', 'mean')`. -/
def reduceShape (x : Shape3) : Shape2 :=
  (x.1, x.2.2)

/-- Shape semantics of `nn.LayerNorm(e)` on a rank-2 input. -/
def layerNormShape2 (e : ℕ) (x : Shape2) : Except Err Shape2 :=
  if x.2 = e then .ok x else .error .shapeError

/-- Shape semantics of `nn.Linear(inF, outF)` on a rank-2 input. -/
def linearShape2 (inF outF : ℕ) (x : Shape2) : Except Err Shape2 :=
  if x.2 = inF then .ok (x.1, outF) else .error .shapeError

namespace ClassificationHead

/-- Shape semantics of `ClassificationHead`: mean-reduce the sequence axis,
layer-normalise, project to `n_classes`. -/
def forwardShape (embSize nClasses : ℕ) (x : Shape3) : Except Err Shape2 :=
  match layerNormShape2 embSize (reduceShape x) with
  | .error e => .error e
  | .ok y => linearShape2 embSize nClasses y

end ClassificationHead

/-- Configuration recorded by `ViT.__init__`. -/
structure ViTCfg where
  inChannels : ℕ
  patchSize : ℕ
  embSize : ℕ
  imgSize : ℕ
  depth : ℕ
  nClasses : ℕ
  numHeads : ℕ
  deriving DecidableEq

namespace ViT

/-- Translation of `ViT.__init__`: constructs the patch embedding, the
encoder stack (each block constructing a `MultiHeadAttention`), and the
classification head.  None of these constructors validates its arguments,
so construction never raises. -/
def init (inChannels patchSize embSize imgSize depth nClasses numHeads : ℕ) :
    Except Err ViTCfg :=
  match PatchEmbedding.init inChannels patchSize embSize imgSize with
  | .error e => .error e
  | .ok _ =>
    match MultiHeadAttention.init embSize numHeads with
    | .error e => .error e
    | .ok _ =>
      .ok ⟨inChannels, patchSize, embSize, imgSize, depth, nClasses, numHeads⟩

/-- Shape semantics of the full `ViT` forward pass. -/
def forwardShape (cfg : ViTCfg) (x : Shape4) : Except Err Shape2 :=
  match PatchEmbedding.forwardShape
      ⟨cfg.inChannels, cfg.patchSize, cfg.embSize, cfg.imgSize⟩ x with
  | .error e => .error e
  | .ok y =>
    match TransformerEncoder.forwardShape cfg.depth
        ⟨cfg.embSize, cfg.numHeads⟩ y with
    | .error e => .error e
    | .ok z => ClassificationHead.forwardShape cfg.embSize cfg.nClasses z

end ViT

/-! ### Element semantics over ℝ

Tensors are total functions from indices to reals; the shape layer above
already accounts for index bounds, so the element layer states the numeric
relations the claims are about.  The definitions are noncomputable only
because exact real arithmetic is: they are still plain functions of their
inputs, evaluated in proofs by unfolding. -/

noncomputable section

/-- Elements of a rank-3 tensor, indexed `(batch, token, feature)`. -/
abbrev Tensor3 := ℕ → ℕ → ℕ → ℝ

/-- Elements of a rank-4 tensor. -/
abbrev Tensor4 := ℕ → ℕ → ℕ → ℕ → ℝ

/-- Elements of `nn.Conv2d(inC, outC, k, stride=s)` output: a bias plus the
kernel-window dot product anchored at `(i*s, j*s)`. -/
def conv2dApply (inC k s : ℕ) (weight : ℕ → ℕ → ℕ → ℕ → ℝ) (bias : ℕ → ℝ)
    (x : Tensor4) : Tensor4 :=
  fun b e i j =>
    bias e + ∑ c ∈ Finset.range inC, ∑ p ∈ Finset.range k,
      ∑ q ∈ Finset.range k, weight e c p q * x b c (i * s + p) (j * s + q)

/-- Learned parameters created by `PatchEmbedding.__init__`. -/
structure PatchEmbeddingParams where
  weight : ℕ → ℕ → ℕ → ℕ → ℝ
  bias : ℕ → ℝ
  clsToken : ℕ → ℝ
  positions : ℕ → ℕ → ℝ

namespace PatchEmbedding

/-- Elementwise translation of `PatchEmbedding.forward` with output grid
width `gridW`: the convolution's grid is flattened row-major by the
rearrange `b e h w -> b (h w) e`, the class token (repeated over the batch)
is concatenated at token index 0, and the positional table is added with
broadcast over the batch. -/
def forwardData (cfg : PatchEmbeddingCfg) (ps : PatchEmbeddingParams)
    (gridW : ℕ) (x : Tensor4) : Tensor3 :=
  fun b t e =>
    (if t = 0 then ps.clsToken e
     else
       conv2dApply cfg.inChannels cfg.patchSize cfg.patchSize
         ps.weight ps.bias x b e ((t - 1) / gridW) ((t - 1) % gridW))
    + ps.positions t e

end PatchEmbedding

/-- Learned parameters created by `MultiHeadAttention.__init__`. -/
structure MHAParams where
  qkvWeight : ℕ → ℕ → ℝ
  qkvBias : ℕ → ℝ
  projWeight : ℕ → ℕ → ℝ
  projBias : ℕ → ℝ

namespace MultiHeadAttention

/-- Per-head feature width: the rearrange `b n (h d qkv) -> (qkv) b h n d`
solves `emb_size * 3 = num_heads * d * 3` for `d`. -/
def headDim (cfg : MHACfg) : ℕ :=
  cfg.embSize * 3 / (cfg.numHeads * 3)

/-- Elements of the qkv linear map `self.qkv(x)`, feature width
`emb_size * 3`. -/
def qkvOut (cfg : MHACfg) (p : MHAParams) (x : Tensor3) : Tensor3 :=
  fun b n m =>
    p.qkvBias m + ∑ i ∈ Finset.range cfg.embSize, p.qkvWeight m i * x b n i

/-- Queries: component `qkv = 0` of the factored axis `(h d qkv)`. -/
def queries (cfg : MHACfg) (p : MHAParams) (x : Tensor3) : Tensor4 :=
  fun b h n d => qkvOut cfg p x b n (h * (headDim cfg * 3) + d * 3)

/-- Keys: component `qkv = 1` of the factored axis `(h d qkv)`. -/
def keys (cfg : MHACfg) (p : MHAParams) (x : Tensor3) : Tensor4 :=
  fun b h n d => qkvOut cfg p x b n (h * (headDim cfg * 3) + d * 3 + 1)

/-- Values: component `qkv = 2` of the factored axis `(h d qkv)`. -/
def values (cfg : MHACfg) (p : MHAParams) (x : Tensor3) : Tensor4 :=
  fun b h n d => qkvOut cfg p x b n (h * (headDim cfg * 3) + d * 3 + 2)

/-- Elements of `energy = einsum('bhqd, bhkd -> bhqk', queries, keys)`. -/
def energy (cfg : MHACfg) (p : MHAParams) (x : Tensor3) : Tensor4 :=
  fun b h q k =>
    ∑ d ∈ Finset.range (headDim cfg),
      queries cfg p x b h q d * keys cfg p x b h k d

/-- Softmax along an axis of length `t`: exp-normalisation, the mathematical
meaning of `F.softmax(·, dim=-1)`. -/
def softmaxLast (t : ℕ) (f : ℕ → ℝ) (k : ℕ) : ℝ :=
  Real.exp (f k) / ∑ j ∈ Finset.range t, Real.exp (f j)

/-- The scaling `self.emb_size ** (1 / 2)`. -/
def scaling (cfg : MHACfg) : ℝ :=
  Real.sqrt cfg.embSize

/-- Elements of `att = F.softmax(energy, dim=-1) / scaling` for a key axis of
length `t`: the division by `sqrt(emb_size)` is applied to the softmax
output, not to `energy` before the softmax.  With the default `dropout = 0`
(and in inference mode) `self.att_drop` is the identity, so these are the
weights used against the values. -/
def att (cfg : MHACfg) (p : MHAParams) (t : ℕ) (x : Tensor3) : Tensor4 :=
  fun b h q k =>
    softmaxLast t (fun j => energy cfg p x b h q j) k / scaling cfg

/-- Elements of `out = einsum('bhal, bhlv -> bhav', att, values)`. -/
def attnOut (cfg : MHACfg) (p : MHAParams) (t : ℕ) (x : Tensor3) : Tensor4 :=
  fun b h a v =>
    ∑ l ∈ Finset.range t, att cfg p t x b h a l * values cfg p x b h l v

/-- Elementwise translation of the tail of `MultiHeadAttention.forward`:
rearrange `b h n d -> b n (h d)` then the final projection. -/
def forwardData (cfg : MHACfg) (p : MHAParams) (t : ℕ) (x : Tensor3) :
    Tensor3 :=
  fun b n m =>
    p.projBias m + ∑ i ∈ Finset.range cfg.embSize,
      p.projWeight m i * attnOut cfg p t x b (i / headDim cfg) n (i % headDim cfg)

end MultiHeadAttention

namespace ResidualAdd

/-- Elementwise translation of `ResidualAdd.forward`: save `res = x`, run
the wrapped module, add the residual in place. -/
def forward (fn : Tensor3 → Tensor3) (x : Tensor3) : Tensor3 :=
  fun b n e => fn x b n e + x b n e

end ResidualAdd

/-- Learned parameters of `ClassificationHead`: layer-norm scale and shift,
then the weight and bias of `nn.Linear(emb_size, n_classes)`. -/
structure ClassificationHeadParams where
  gamma : ℕ → ℝ
  beta : ℕ → ℝ
  lw : ℕ → ℕ → ℝ
  lb : ℕ → ℝ

/-- Elements of the einops `Reduce('b n e -> b e', 'mean')` over a sequence
of length `t`. -/
def reduceMean (t : ℕ) (x : Tensor3) : ℕ → ℕ → ℝ :=
  fun b e => (∑ n ∈ Finset.range t, x b n e) / (t : ℝ)

/-- Elements of `nn.LayerNorm(e)` on one vector: normalise by the biased
mean and variance over the `e` features (eps `1e-5`), then apply the learned
affine scale and shift. -/
def layerNorm1d (e : ℕ) (gamma beta : ℕ → ℝ) (v : ℕ → ℝ) : ℕ → ℝ :=
  fun i =>
    gamma i *
      ((v i - (∑ j ∈ Finset.range e, v j) / (e : ℝ)) /
        Real.sqrt
          ((∑ j ∈ Finset.range e,
              (v j - (∑ l ∈ Finset.range e, v l) / (e : ℝ)) ^ 2) / (e : ℝ)
            + 1 / 100000)) + beta i

/-- Elements of `nn.Linear(e, ·)` on one vector. -/
def linear1d (e : ℕ) (w : ℕ → ℕ → ℝ) (bias : ℕ → ℝ) (v : ℕ → ℝ) : ℕ → ℝ :=
  fun j => bias j + ∑ i ∈ Finset.range e, w j i * v i

namespace ClassificationHead

/-- Elementwise translation of `ClassificationHead` on a sequence of length
`t`: mean-reduce the token axis, layer-normalise, project. -/
def forwardData (e t : ℕ) (ps : ClassificationHeadParams) (x : Tensor3) :
    ℕ → ℕ → ℝ :=
  fun b j =>
    linear1d e ps.lw ps.lb
      (layerNorm1d e ps.gamma ps.beta (fun i => reduceMean t x b i)) j

end ClassificationHead

/-- All-zero rank-4 tensor, used to instantiate universally quantified
statements at a concrete input. -/
def zeros4 : Tensor4 := fun _ _ _ _ => 0

/-- All-zero rank-3 tensor. -/
def zeros3 : Tensor3 := fun _ _ _ => 0

/-- Zero-initialised patch-embedding parameters. -/
def peZeroParams : PatchEmbeddingParams :=
  ⟨fun _ _ _ _ => 0, fun _ => 0, fun _ => 0, fun _ _ => 0⟩

/-- Zero-initialised attention parameters. -/
def mhaZeroParams : MHAParams :=
  ⟨fun _ _ => 0, fun _ => 0, fun _ _ => 0, fun _ => 0⟩

/-- Zero-initialised classification-head parameters. -/
def headZeroParams : ClassificationHeadParams :=
  ⟨fun _ => 0, fun _ => 0, fun _ _ => 0, fun _ => 0⟩

end

/-! ### Shape lemmas -/

theorem conv2dShape_ok (inC outC k s b h w : ℕ) (hh : k ≤ h) (hw : k ≤ w) :
    conv2dShape inC outC k s (b, inC, h, w) =
      .ok (b, outC, (h - k) / s + 1, (w - k) / s + 1) := by
  simp [conv2dShape, hh, hw]

theorem grid_count (img patch : ℕ) (hp : 0 < patch) (hi : 0 < img)
    (hd : patch ∣ img) : (img - patch) / patch + 1 = img / patch := by
  obtain ⟨m, rfl⟩ := hd
  have hm : 0 < m := by
    rcases Nat.eq_zero_or_pos m with h0 | h0
    · subst h0; omega
    · exact h0
  obtain ⟨m', rfl⟩ : ∃ m', m = m' + 1 := ⟨m - 1, by omega⟩
  have h1 : patch * (m' + 1) - patch = patch * m' := by
    rw [Nat.mul_succ]; omega
  rw [h1, Nat.mul_div_cancel_left _ hp, Nat.mul_div_cancel_left _ hp]

theorem patchEmbedding_forwardShape_ok (inC patch emb img b : ℕ)
    (hp : 0 < patch) (hi : 0 < img) (hd : patch ∣ img) :
    PatchEmbedding.forwardShape ⟨inC, patch, emb, img⟩ (b, inC, img, img) =
      .ok (b, (img / patch) ^ 2 + 1, emb) := by
  have hle : patch ≤ img := Nat.le_of_dvd hi hd
  simp only [PatchEmbedding.forwardShape,
    conv2dShape_ok inC emb patch patch b img img hle hle,
    grid_count img patch hp hi hd]
  simp [numPositions, pow_two]

theorem mha_forwardShape_ok (emb heads b n : ℕ) (hd : heads ∣ emb) :
    MultiHeadAttention.forwardShape ⟨emb, heads⟩ (b, n, emb) none =
      .ok (b, n, emb) := by
  obtain ⟨c, rfl⟩ := hd
  rcases Nat.eq_zero_or_pos heads with h0 | hpos
  · subst h0
    simp [MultiHeadAttention.forwardShape, linearShape]
  · have h3 : 0 < heads * 3 := by omega
    have h1 : heads * c * 3 = heads * 3 * c := by ring
    simp only [MultiHeadAttention.forwardShape, linearShape, h1]
    simp [Nat.mul_mod_right, Nat.mul_div_cancel_left _ h3]

theorem residual_ok (fn : Shape3 → Except Err Shape3) (x : Shape3)
    (h : fn x = .ok x) : ResidualAdd.forwardShape fn x = .ok x := by
  simp [ResidualAdd.forwardShape, h]

theorem block_ok (emb heads expansion b n : ℕ) (hd : heads ∣ emb) :
    TransformerEncoderBlock.forwardShape ⟨emb, heads⟩ expansion (b, n, emb) =
      .ok (b, n, emb) := by
  have hmha := mha_forwardShape_ok emb heads b n hd
  simp [TransformerEncoderBlock.forwardShape, ResidualAdd.forwardShape,
    layerNormShape, FeedForwardBlock.forwardShape, linearShape, hmha]

theorem encoder_ok (depth emb heads b n : ℕ) (hd : heads ∣ emb) :
    TransformerEncoder.forwardShape depth ⟨emb, heads⟩ (b, n, emb) =
      .ok (b, n, emb) := by
  induction depth with
  | zero => rfl
  | succ d ih =>
    simp [TransformerEncoder.forwardShape, block_ok emb heads 4 b n hd, ih]

theorem head_shape_ok (emb nC b n : ℕ) :
    ClassificationHead.forwardShape emb nC (b, n, emb) = .ok (b, nC) := by
  simp [ClassificationHead.forwardShape, layerNormShape2, linearShape2,
    reduceShape]

/-! ### The claims -/

/-- C1, counterexample: constructing `ViT` with `emb_size = 100` and
`num_heads = 8` (not divisible) succeeds — no constructor validates the
divisibility — contradicting the claim that construction fails with
`ConfigError`. -/
theorem C1_init_no_configError :
    ViT.init 3 16 100 224 12 1000 8 = .ok ⟨3, 16, 100, 224, 12, 1000, 8⟩ :=
  rfl

/-- C1, amended: construction with `emb_size = 100, num_heads = 8` succeeds,
and the non-divisibility surfaces only at the first forward pass, where the
einops rearrange splitting the qkv tensor into heads fails because
`100 * 3` does not factor as `8 * d * 3`. -/
theorem C1_failure_at_forward :
    ViT.init 3 16 100 224 12 1000 8 = .ok ⟨3, 16, 100, 224, 12, 1000, 8⟩ ∧
    ViT.forwardShape ⟨3, 16, 100, 224, 12, 1000, 8⟩ (1, 3, 224, 224) =
      .error .rearrangeError :=
  ⟨rfl, rfl⟩

/-- C2, code bug: when a mask is supplied, `MultiHeadAttention.forward`
raises `AttributeError` at `energy.mask_fill(~mask, fill_value)` —
`torch.Tensor` has no attribute `mask_fill` — so no attention weight is ever
computed for a masked call, and (even reading the call as `masked_fill`) the
returned tensor is discarded, leaving `energy` unmasked.  The claimed
negligible weight at masked positions never happens. -/
theorem C2_mask_raises_attributeError :
    MultiHeadAttention.forwardShape ⟨768, 8⟩ (1, 197, 768)
      (some (1, 197, 197)) = .error .attributeError :=
  rfl

/-- C3, counterexample: with `img_size = 225, patch_size = 16` (225 not
divisible by 16) the Patch Tokenizer's forward pass on a `(1, 3, 225, 225)`
input succeeds with 197 tokens instead of failing: the strided convolution
floors the grid, and `(225 / 16)^2 + 1 = 197` matches the positional table. -/
theorem C3_indivisible_forward_succeeds :
    PatchEmbedding.forwardShape ⟨3, 16, 768, 225⟩ (1, 3, 225, 225) =
      .ok (1, 197, 768) :=
  rfl

/-- C3, amended: the Patch Tokenizer's forward pass fails (with a shape
error from the convolution) when the input channel count differs from the
configured `in_channels`; an input height or width that is not divisible by
`patch_size` does not by itself cause a failure — the strided convolution
floors, discarding the remainder pixels — and in particular the
`img_size = 225, patch_size = 16` model runs successfully. -/
theorem C3_channel_mismatch_only :
    (∀ (cfg : PatchEmbeddingCfg) (B C H W : ℕ), C ≠ cfg.inChannels →
      PatchEmbedding.forwardShape cfg (B, C, H, W) = .error .shapeError) ∧
    PatchEmbedding.forwardShape ⟨3, 16, 768, 225⟩ (1, 3, 225, 225) =
      .ok (1, 197, 768) := by
  constructor
  · intro cfg B C H W hC
    simp [PatchEmbedding.forwardShape, conv2dShape, hC]
  · rfl

/-- C3, witness for the amended statement at a concrete input: channel
count 4 against configured 3 fails with the shape error. -/
theorem C3_channel_mismatch_only_witness :
    (4 : ℕ) ≠ 3 ∧
    PatchEmbedding.forwardShape ⟨3, 16, 768, 225⟩ (1, 4, 225, 225) =
      .error .shapeError :=
  ⟨by norm_num, C3_channel_mismatch_only.1 ⟨3, 16, 768, 225⟩ 1 4 225 225
    (by norm_num)⟩

/-- C5: for every valid configuration (positive patch size and image size,
`patch_size ∣ img_size`, `num_heads ∣ emb_size`) and every batch size, the
full forward pass returns exactly the shape `(batch, n_classes)`, whatever
`img_size`, `patch_size` and `depth` are. -/
theorem C5_output_shape (inC patch emb img depth nC heads B : ℕ)
    (hp : 0 < patch) (hi : 0 < img) (hdvd : patch ∣ img)
    (hheads : heads ∣ emb) :
    ViT.forwardShape ⟨inC, patch, emb, img, depth, nC, heads⟩
      (B, inC, img, img) = .ok (B, nC) := by
  simp [ViT.forwardShape,
    patchEmbedding_forwardShape_ok inC patch emb img B hp hi hdvd,
    encoder_ok depth emb heads B ((img / patch) ^ 2 + 1) hheads,
    head_shape_ok]

/-- C5, witness: the default configuration on a `(1, 3, 224, 224)` input
yields output shape `(1, 1000)`. -/
theorem C5_output_shape_witness :
    0 < 16 ∧ 0 < 224 ∧ (16 ∣ 224) ∧ (8 ∣ 768) ∧
    ViT.forwardShape ⟨3, 16, 768, 224, 12, 1000, 8⟩ (1, 3, 224, 224) =
      .ok (1, 1000) :=
  ⟨by norm_num, by norm_num, by norm_num, by norm_num,
    C5_output_shape 3 16 768 224 12 1000 8 1 (by norm_num) (by norm_num)
      (by norm_num) (by norm_num)⟩

/-- C10: a model with `img_size = 225, patch_size = 16` constructs and runs:
the Patch Tokenizer produces `floor(225/16)^2 = 196` patch tokens plus the
class token (197), matching the positional table computed with the same
floor division, and the full forward pass on `(B, 3, 225, 225)` returns
`(B, 1000)` for every batch size with no error at any stage. -/
theorem C10_img225_succeeds (B : ℕ) :
    ViT.init 3 16 768 225 12 1000 8 = .ok ⟨3, 16, 768, 225, 12, 1000, 8⟩ ∧
    PatchEmbedding.forwardShape ⟨3, 16, 768, 225⟩ (B, 3, 225, 225) =
      .ok (B, 196 + 1, 768) ∧
    ViT.forwardShape ⟨3, 16, 768, 225, 12, 1000, 8⟩ (B, 3, 225, 225) =
      .ok (B, 1000) := by
  have hpe : PatchEmbedding.forwardShape ⟨3, 16, 768, 225⟩
      (B, 3, 225, 225) = .ok (B, 196 + 1, 768) := by
    norm_num [PatchEmbedding.forwardShape, conv2dShape, numPositions]
  refine ⟨rfl, hpe, ?_⟩
  simp [ViT.forwardShape, hpe, encoder_ok 12 768 8 B 197 (by norm_num),
    head_shape_ok]

/-- C4: the attention weights are `softmax(energy)` divided by
`sqrt(emb_size)` — the scaling is applied to the softmax output, not to the
raw scores — so every attention-weight row sums to `1 / sqrt(emb_size)`
rather than 1, for every head, query and batch item. -/
theorem C4_att_row_sum (cfg : MHACfg) (p : MHAParams) (T : ℕ) (x : Tensor3)
    (b h q : ℕ) (hT : 0 < T) :
    ∑ k ∈ Finset.range T, MultiHeadAttention.att cfg p T x b h q k =
      1 / Real.sqrt cfg.embSize := by
  have hS : 0 < ∑ j ∈ Finset.range T,
      Real.exp (MultiHeadAttention.energy cfg p x b h q j) :=
    Finset.sum_pos (fun j _ => Real.exp_pos _)
      (Finset.nonempty_range_iff.mpr (by omega))
  simp only [MultiHeadAttention.att, MultiHeadAttention.softmaxLast,
    MultiHeadAttention.scaling]
  rw [← Finset.sum_div, ← Finset.sum_div, div_self hS.ne']

/-- C4, witness: a length-1 sequence with zero parameters and
`emb_size = 2` has attention-row sum `1 / sqrt 2`. -/
theorem C4_att_row_sum_witness :
    (0 : ℕ) < 1 ∧
    ∑ k ∈ Finset.range 1,
        MultiHeadAttention.att ⟨2, 1⟩ mhaZeroParams 1 zeros3 0 0 0 k =
      1 / Real.sqrt ((2 : ℕ) : ℝ) :=
  ⟨by norm_num,
    C4_att_row_sum ⟨2, 1⟩ mhaZeroParams 1 zeros3 0 0 0 (by norm_num)⟩

/-- C6: with `img_size = 224, patch_size = 16` the Patch Tokenizer produces
exactly `(224/16)^2 + 1 = 197` tokens; the token at sequence index 0 is the
class token (plus positional vector 0), and token `1 + (h*14 + w)` is the
embedding of the patch at grid row `h`, column `w` — the patches follow the
class token in row-major order. -/
theorem C6_tokenization (E B : ℕ) (ps : PatchEmbeddingParams) (x : Tensor4)
    (b e h w : ℕ) (hh : h < 14) (hw : w < 14) :
    PatchEmbedding.forwardShape ⟨3, 16, E, 224⟩ (B, 3, 224, 224) =
      .ok (B, 197, E) ∧
    PatchEmbedding.forwardData ⟨3, 16, E, 224⟩ ps 14 x b 0 e =
      ps.clsToken e + ps.positions 0 e ∧
    PatchEmbedding.forwardData ⟨3, 16, E, 224⟩ ps 14 x b (1 + (h * 14 + w)) e
      = conv2dApply 3 16 16 ps.weight ps.bias x b e h w
        + ps.positions (1 + (h * 14 + w)) e := by
  refine ⟨?_, ?_, ?_⟩
  · norm_num [PatchEmbedding.forwardShape, conv2dShape, numPositions]
  · simp [PatchEmbedding.forwardData]
  · have ht : 1 + (h * 14 + w) ≠ 0 := by omega
    simp only [PatchEmbedding.forwardData, if_neg ht]
    have h1 : 1 + (h * 14 + w) - 1 = h * 14 + w := by omega
    have hdiv : (h * 14 + w) / 14 = h := by omega
    have hmod : (h * 14 + w) % 14 = w := by omega
    rw [h1, hdiv, hmod]

/-- C6, witness: the patch at grid position `(0, 1)` lands at token index
`1 + (0*14 + 1) = 2`. -/
theorem C6_tokenization_witness :
    (0 : ℕ) < 14 ∧ (1 : ℕ) < 14 ∧
    (PatchEmbedding.forwardShape ⟨3, 16, 768, 224⟩ (1, 3, 224, 224) =
        .ok (1, 197, 768) ∧
      PatchEmbedding.forwardData ⟨3, 16, 768, 224⟩ peZeroParams 14 zeros4
          0 0 0 =
        peZeroParams.clsToken 0 + peZeroParams.positions 0 0 ∧
      PatchEmbedding.forwardData ⟨3, 16, 768, 224⟩ peZeroParams 14 zeros4
          0 (1 + (0 * 14 + 1)) 0 =
        conv2dApply 3 16 16 peZeroParams.weight peZeroParams.bias zeros4
            0 0 0 1
          + peZeroParams.positions (1 + (0 * 14 + 1)) 0) :=
  ⟨by norm_num, by norm_num,
    C6_tokenization 768 1 peZeroParams zeros4 0 0 0 1 (by norm_num)
      (by norm_num)⟩

/-- C7: the Residual Wrapper returns `fn(x) + x` elementwise for every
wrapped sub-transformation `fn`, and when `fn` is the identity its output is
exactly twice the input. -/
theorem C7_residual_add (fn : Tensor3 → Tensor3) (x : Tensor3) (b n e : ℕ) :
    ResidualAdd.forward fn x b n e = fn x b n e + x b n e ∧
    ResidualAdd.forward id x b n e = 2 * x b n e := by
  refine ⟨rfl, ?_⟩
  simp [ResidualAdd.forward]
  ring

/-- C8: the Classification Head equals a linear projection of the
layer-normalised mean over all `T` token positions — the mean explicitly
includes the class-token position 0 together with positions `1..T-1`, rather
than selecting position 0. -/
theorem C8_head_mean_pool (E T : ℕ) (ps : ClassificationHeadParams)
    (x : Tensor3) (b j : ℕ) (hT : 0 < T) :
    ClassificationHead.forwardData E T ps x b j =
      linear1d E ps.lw ps.lb
        (layerNorm1d E ps.gamma ps.beta
          (fun e => (x b 0 e + ∑ n ∈ Finset.Ico 1 T, x b n e) / (T : ℝ)))
        j := by
  have hsum : ∀ e : ℕ, ∑ n ∈ Finset.range T, x b n e =
      x b 0 e + ∑ n ∈ Finset.Ico 1 T, x b n e := by
    intro e
    rw [Finset.range_eq_Ico, Finset.sum_eq_sum_Ico_succ_bot hT]
  simp only [ClassificationHead.forwardData, reduceMean, hsum]

/-- C8, witness: the mean-pool decomposition at a length-1 sequence with
zero parameters. -/
theorem C8_head_mean_pool_witness :
    (0 : ℕ) < 1 ∧
    ClassificationHead.forwardData 1 1 headZeroParams zeros3 0 0 =
      linear1d 1 headZeroParams.lw headZeroParams.lb
        (layerNorm1d 1 headZeroParams.gamma headZeroParams.beta
          (fun e =>
            (zeros3 0 0 e + ∑ n ∈ Finset.Ico 1 1, zeros3 0 n e) /
              ((1 : ℕ) : ℝ)))
        0 :=
  ⟨by norm_num,
    C8_head_mean_pool 1 1 headZeroParams zeros3 0 0 (by norm_num)⟩

/-- C9: the token the Patch Tokenizer emits at sequence position 0 is the
learned class token plus positional vector 0, for every input image, every
batch item and every grid width — identical across runs and batch items,
independent of the image content. -/
theorem C9_cls_token_independent (cfg : PatchEmbeddingCfg)
    (ps : PatchEmbeddingParams) (gw gw' : ℕ) (x y : Tensor4) (b b' e : ℕ) :
    PatchEmbedding.forwardData cfg ps gw x b 0 e =
      ps.clsToken e + ps.positions 0 e ∧
    PatchEmbedding.forwardData cfg ps gw x b 0 e =
      PatchEmbedding.forwardData cfg ps gw' y b' 0 e := by
  simp [PatchEmbedding.forwardData]

end ViTModel
